import Mathlib

/-!
Shallow embedding of src/dflow/slurm.py: the SlurmJob remote resource
manifest builder, the SlurmJobTemplate three-phase pipeline rewriter, and
the SlurmRemoteExecutor direct-SSH submission script builder.

Conventions of the embedding:
* Python ordered dicts become association lists (`Dict`), with `Dict.insert`
  reproducing dict assignment (an existing key keeps its position, a fresh
  key is appended).
* Artifact objects carry their declared path as the value of their dict
  entry; parameter names live in the dict keys.
* Placeholder reference objects of the host workflow engine are kept as the
  reference strings the engine later resolves.
* The final yaml.dump call of get_manifest is an external serialization
  library; the manifest is kept as structured data.
* The upload primitive inherited from RemoteExecutor lives in executor.py,
  outside this module, and is passed to run as an opaque function.
Braces of placeholder strings are written with the escapes \x7b and \x7d.
-/

set_option maxHeartbeats 1000000

namespace DflowSlurm

/-- Association list standing in for a Python ordered dict. -/
abbrev Dict (α : Type) : Type := List (String × α)

/-- Ordered-dict assignment d[k] = v: an existing key keeps its position and
receives the new value, a fresh key is appended at the end. -/
def Dict.insert {α : Type} (d : Dict α) (k : String) (v : α) : Dict α :=
  if d.any (fun p => p.1 == k) then
    d.map (fun p => if p.1 == k then (k, v) else p)
  else d ++ [(k, v)]

/-- Keys of an ordered dict, in order. -/
def Dict.keys {α : Type} (d : Dict α) : List String := d.map Prod.fst

/-- Occurrence of pat as a contiguous run of characters of the second list. -/
def substrAux (pat : List Char) : List Char → Bool
  | [] => pat.isEmpty
  | c :: rest => pat.isPrefixOf (c :: rest) || substrAux pat rest

/-- Substring test: containsSub pat s decides whether pat occurs in s. -/
def containsSub (pat s : String) : Bool := substrAux pat.data s.data

/-- Embedding of os.path.dirname for the POSIX paths used on artifacts: the
text up to the last slash, with trailing slashes stripped unless the result
consists of slashes only. -/
def dirname (p : String) : String :=
  let head := (p.data.reverse.dropWhile (fun c => c != '/')).reverse
  if head ≠ [] ∧ head.any (fun c => c != '/') then
    String.mk ((head.reverse.dropWhile (fun c => c == '/')).reverse)
  else String.mk head

/-- Embedding of the reserved-prefix test name[:6] == "dflow_". -/
def isDflowParam (n : String) : Bool := n.data.take 6 == "dflow_".data

/-- Declared input parameter; the name lives in the dict key. -/
structure InputParameter where
  value : Option String := none
  deriving DecidableEq

/-- Declared output parameter; the name lives in the dict key. -/
structure OutputParameter where
  value : Option String := none
  value_from_path : Option String := none
  value_from_parameter : Option String := none
  deriving DecidableEq

/-- Pass-through input artifact declaration of the composite template. -/
structure InputArtifactDecl where
  name : String
  deriving DecidableEq

/-- Output artifact declaration of the composite template, rerouted through a
placeholder reference. -/
structure OutputArtifactDecl where
  name : String
  _from : String
  deriving DecidableEq

/-- The Template Descriptor consumed by render: named inputs and outputs plus
a command and a script body. Artifact entries map the artifact name to its
declared path. -/
structure TemplateDesc where
  name : String
  inputs_parameters : Dict InputParameter := []
  inputs_artifacts : Dict String := []
  outputs_parameters : Dict OutputParameter := []
  outputs_artifacts : Dict String := []
  command : List String := []
  script : String := ""
  deriving DecidableEq

structure V1HostPathVolumeSource where
  path : String
  type : String
  deriving DecidableEq

structure V1Volume where
  name : String
  host_path : V1HostPathVolumeSource
  deriving DecidableEq

structure V1VolumeMount where
  name : String
  mount_path : String
  deriving DecidableEq

structure HostPathDef where
  path : String
  type : String
  deriving DecidableEq

structure MountDef where
  name : String
  hostPath : HostPathDef
  deriving DecidableEq

/-- The prepare stanza of the manifest. -/
structure PrepareStanza where
  _to : String
  mount : MountDef
  deriving DecidableEq

/-- The results stanza of the manifest. -/
structure ResultsStanza where
  _from : String
  mount : MountDef
  deriving DecidableEq

/-- The manifest dict built by get_manifest, before yaml.dump. -/
structure Manifest where
  apiVersion : String
  kind : String
  metadata_name : String
  batch : String
  nodeSelector : Option (Dict String) := none
  prepare : Option PrepareStanza := none
  results : Option ResultsStanza := none
  deriving DecidableEq

/-- V1alpha1ResourceTemplate as used on the run template. -/
structure ResourceTemplate where
  action : String
  success_condition : String
  failure_condition : String
  manifest : Manifest
  deriving DecidableEq

/-- A constructed inner operation template (ShellOPTemplate or
ScriptOPTemplate). -/
structure OPTemplate where
  name : String
  image : String := ""
  script : String := ""
  volumes : List V1Volume := []
  mounts : List V1VolumeMount := []
  inputs_parameters : Dict InputParameter := []
  inputs_artifacts : Dict String := []
  outputs_parameters : Dict OutputParameter := []
  outputs_artifacts : Dict String := []
  resource : Option ResourceTemplate := none
  deriving DecidableEq

/-- A step of the composite template; parameters and artifacts are the
argument wiring, holding placeholder reference strings. -/
structure StepT where
  name : String
  template : OPTemplate
  parameters : Dict String := []
  artifacts : Dict String := []
  deriving DecidableEq

/-- The composite Steps template returned by render. -/
structure StepsTemplate where
  name : String
  inputs_parameters : Dict InputParameter := []
  inputs_artifacts : Dict InputArtifactDecl := []
  outputs_parameters : Dict OutputParameter := []
  outputs_artifacts : Dict OutputArtifactDecl := []
  steps : List StepT := []
  deriving DecidableEq

/-- The SlurmJob resource. -/
structure SlurmJob where
  header : String
  action : String
  success_condition : String
  failure_condition : String
  node_selector : Option (Dict String)
  prepare : Option PrepareStanza
  results : Option ResultsStanza
  map_tmp_dir : Bool
  workdir : String
  remote_command : Option (List String)
  deriving DecidableEq

/-- Embedding of SlurmJob.__init__: action and the two condition strings are
fixed, the other fields are stored from the arguments (a single-string
remote command arrives already wrapped as a one-element list). -/
def SlurmJob.init (header : String) (node_selector : Option (Dict String))
    (prepare : Option PrepareStanza) (results : Option ResultsStanza)
    (map_tmp_dir : Bool) (workdir : String)
    (remote_command : Option (List String)) : SlurmJob :=
  { header := header,
    action := "create",
    success_condition := "status.status == Succeeded",
    failure_condition := "status.status == Failed",
    node_selector := node_selector,
    prepare := prepare,
    results := results,
    map_tmp_dir := map_tmp_dir,
    workdir := workdir,
    remote_command := remote_command }

/-- Embedding of SlurmJob.get_manifest; yaml.dump is external serialization,
so the manifest stays structured data. -/
def SlurmJob.get_manifest (self : SlurmJob) (template : TemplateDesc) : Manifest :=
  let remote_command := match self.remote_command with
    | none => template.command
    | some rc => rc
  let map_cmd := if self.map_tmp_dir then " | sed \"s#/tmp#$(pwd)/tmp#g\" " else ""
  { apiVersion := "wlm.sylabs.io/v1alpha1",
    kind := "SlurmJob",
    metadata_name := "\x7b\x7bpod.name\x7d\x7d",
    batch := self.header ++ "\nmkdir -p " ++ self.workdir ++ "\ncd " ++ self.workdir
      ++ "\ncat <<EOF " ++ map_cmd ++ " | " ++ String.intercalate " " remote_command
      ++ "\n" ++ template.script ++ "\nEOF",
    nodeSelector := self.node_selector,
    prepare := self.prepare,
    results := self.results }

/-- Configuration of the pipeline rewriter SlurmJobTemplate. -/
structure SlurmJobTemplate where
  header : String := ""
  node_selector : Option (Dict String) := none
  prepare_image : String := "alpine:latest"
  collect_image : String := "alpine:latest"
  workdir : String := "dflow/workflows/\x7b\x7bworkflow.name\x7d\x7d/\x7b\x7bpod.name\x7d\x7d"
  remote_command : Option (List String) := none
  deriving DecidableEq

/-- Truthiness of template.inputs.artifacts. -/
def TemplateDesc.hasInputArtifacts (t : TemplateDesc) : Bool :=
  !t.inputs_artifacts.isEmpty

/-- Truthiness of template.outputs.parameters or template.outputs.artifacts. -/
def TemplateDesc.hasOutputs (t : TemplateDesc) : Bool :=
  !t.outputs_parameters.isEmpty || !t.outputs_artifacts.isEmpty

/-- Placeholder reference to an input parameter of the enclosing template. -/
def inputParamRef (n : String) : String :=
  "\x7b\x7binputs.parameters." ++ n ++ "\x7d\x7d"

/-- Placeholder reference to an input artifact of the enclosing template. -/
def compInputArtifactRef (n : String) : String :=
  "\x7b\x7binputs.artifacts." ++ n ++ "\x7d\x7d"

/-- Placeholder reference to the staged-volume output parameter of the
prepare step. -/
def prepareVolRef : String :=
  "\x7b\x7bsteps.slurm-prepare.outputs.parameters.dflow_vol_path\x7d\x7d"

/-- Placeholder reference to the staged-volume output parameter of the run
step. -/
def runVolRef : String :=
  "\x7b\x7bsteps.slurm-run.outputs.parameters.dflow_vol_path\x7d\x7d"

/-- Pass-through input parameter declaration of the composite template. -/
def newInParamVal (_kv : String × InputParameter) : InputParameter :=
  { value := none }

/-- Pass-through input artifact declaration of the composite template. -/
def newInArtifactVal (kv : String × String) : InputArtifactDecl :=
  { name := kv.1 }

/-- Wiring value handed to the run step for one original input parameter. -/
def wiringRef (kv : String × InputParameter) : String := inputParamRef kv.1

/-- Forwarded value for one reserved dflow_-prefixed input parameter. -/
def dflowPassVal (kv : String × InputParameter) : InputParameter :=
  { value := some (inputParamRef kv.1) }

/-- Reference value handed to the prepare step for one input artifact. -/
def prepStepArtVal (kv : String × String) : String := compInputArtifactRef kv.1

/-- Composite output parameter rerouted through the collect step. -/
def compOutParamVal (kv : String × OutputParameter) : OutputParameter :=
  { value_from_parameter :=
      some ("\x7b\x7bsteps.slurm-collect.outputs.parameters." ++ kv.1 ++ "\x7d\x7d") }

/-- Composite output artifact rerouted through the collect step. -/
def compOutArtifactVal (kv : String × String) : OutputArtifactDecl :=
  { name := kv.1,
    _from := "\x7b\x7bsteps.slurm-collect.outputs.artifacts." ++ kv.1 ++ "\x7d\x7d" }

/-- Per-artifact staging lines of the prepare script: create the destination
directory under the shared volume and copy the artifact in. -/
def prepareScriptOf (t : TemplateDesc) : String :=
  String.join (t.inputs_artifacts.map (fun kv =>
    "mkdir -p /workdir/" ++ dirname kv.2 ++ "\n"
      ++ "cp -r " ++ kv.2 ++ " /workdir/" ++ kv.2 ++ "\n"))

/-- Loop forwarding the reserved dflow_-prefixed input parameters into a
staging template, starting from the dict d0. -/
def dflowPassParams (t : TemplateDesc) (d0 : Dict InputParameter) : Dict InputParameter :=
  t.inputs_parameters.foldl (fun d kv =>
    if isDflowParam kv.1 then Dict.insert d kv.1 (dflowPassVal kv) else d) d0

/-- The prepare ShellOPTemplate. -/
def SlurmJobTemplate.prepareTemplate (self : SlurmJobTemplate) (t : TemplateDesc) :
    OPTemplate :=
  { name := t.name ++ "-slurm" ++ "-prepare",
    image := self.prepare_image,
    script := prepareScriptOf t,
    volumes := [{ name := "workdir",
                  host_path := { path := "/tmp/\x7b\x7bpod.name\x7d\x7d",
                                 type := "DirectoryOrCreate" } }],
    mounts := [{ name := "workdir", mount_path := "/workdir" }],
    inputs_parameters := dflowPassParams t [],
    inputs_artifacts := t.inputs_artifacts,
    outputs_parameters :=
      Dict.insert [] "dflow_vol_path" { value := some "/tmp/\x7b\x7bpod.name\x7d\x7d" } }

/-- The prepare step, receiving all input artifacts of the composite. -/
def SlurmJobTemplate.prepareStep (self : SlurmJobTemplate) (t : TemplateDesc) : StepT :=
  { name := "slurm-prepare",
    template := self.prepareTemplate t,
    artifacts := t.inputs_artifacts.foldl
      (fun d kv => Dict.insert d kv.1 (prepStepArtVal kv)) [] }

/-- The prepare stanza handed to the SlurmJob resource. -/
def SlurmJobTemplate.prepareStanzaOf (self : SlurmJobTemplate) : PrepareStanza :=
  { _to := self.workdir,
    mount := { name := "workdir",
               hostPath := { path := inputParamRef "dflow_vol_path",
                             type := "DirectoryOrCreate" } } }

/-- The results stanza handed to the SlurmJob resource. -/
def SlurmJobTemplate.resultsStanzaOf (self : SlurmJobTemplate) : ResultsStanza :=
  { _from := self.workdir ++ "/workdir",
    mount := { name := "mnt",
               hostPath := { path := "/tmp/\x7b\x7bpod.name\x7d\x7d",
                             type := "DirectoryOrCreate" } } }

/-- The SlurmJob resource built inside render. -/
def SlurmJobTemplate.slurmJobOf (self : SlurmJobTemplate) (t : TemplateDesc) : SlurmJob :=
  SlurmJob.init self.header self.node_selector
    (if t.hasInputArtifacts then some self.prepareStanzaOf else none)
    (if t.hasOutputs then some self.resultsStanzaOf else none)
    true (self.workdir ++ "/workdir") self.remote_command

/-- The run ScriptOPTemplate carrying the resource manifest. -/
def SlurmJobTemplate.runTemplate (self : SlurmJobTemplate) (t : TemplateDesc) :
    OPTemplate :=
  let job := self.slurmJobOf t
  { name := t.name ++ "-slurm" ++ "-run",
    resource := some { action := job.action,
                       success_condition := job.success_condition,
                       failure_condition := job.failure_condition,
                       manifest := job.get_manifest t },
    inputs_parameters :=
      if t.hasInputArtifacts then
        Dict.insert t.inputs_parameters "dflow_vol_path" { value := none }
      else t.inputs_parameters,
    outputs_parameters :=
      if t.hasOutputs then
        Dict.insert [] "dflow_vol_path" { value := some "/tmp/\x7b\x7bpod.name\x7d\x7d" }
      else [] }

/-- The parameter wiring handed to the run step: every original input
parameter unchanged, plus the staged volume path when a prepare step exists. -/
def SlurmJobTemplate.runWiring (t : TemplateDesc) : Dict String :=
  let w := t.inputs_parameters.foldl (fun d kv => Dict.insert d kv.1 (wiringRef kv)) []
  if t.hasInputArtifacts then Dict.insert w "dflow_vol_path" prepareVolRef else w

/-- The run step. -/
def SlurmJobTemplate.runStep (self : SlurmJobTemplate) (t : TemplateDesc) : StepT :=
  { name := "slurm-run",
    template := self.runTemplate t,
    parameters := SlurmJobTemplate.runWiring t }

/-- Per-output staging lines of the collect script: output artifacts first,
then output parameters sourced from a path. -/
def collectScriptOf (t : TemplateDesc) : String :=
  String.join (t.outputs_artifacts.map (fun kv =>
    "mkdir -p `dirname " ++ kv.2 ++ "` && cp -r /mnt/workdir/" ++ kv.2
      ++ " " ++ kv.2 ++ "\n"))
  ++ String.join (t.outputs_parameters.map (fun kv =>
    match kv.2.value_from_path with
    | some p => "mkdir -p `dirname " ++ p ++ "` && cp -r /mnt/workdir/" ++ p
        ++ " " ++ p ++ "\n"
    | none => ""))

/-- The collect ShellOPTemplate. -/
def SlurmJobTemplate.collectTemplate (self : SlurmJobTemplate) (t : TemplateDesc) :
    OPTemplate :=
  { name := t.name ++ "-slurm" ++ "-collect",
    image := self.collect_image,
    script := collectScriptOf t,
    volumes := [{ name := "mnt",
                  host_path := { path := inputParamRef "dflow_vol_path",
                                 type := "DirectoryOrCreate" } }],
    mounts := [{ name := "mnt", mount_path := "/mnt" }],
    inputs_parameters :=
      dflowPassParams t (Dict.insert [] "dflow_vol_path" { value := none }),
    outputs_parameters := t.outputs_parameters,
    outputs_artifacts := t.outputs_artifacts }

/-- The collect step, wired to the staged volume path exposed by the run
step. -/
def SlurmJobTemplate.collectStep (self : SlurmJobTemplate) (t : TemplateDesc) : StepT :=
  { name := "slurm-collect",
    template := self.collectTemplate t,
    parameters := [("dflow_vol_path", runVolRef)] }

/-- Embedding of SlurmJobTemplate.render: the composite Steps template with
the prepare step present iff the template has input artifacts and the
collect step present iff it has any outputs. -/
def SlurmJobTemplate.render (self : SlurmJobTemplate) (t : TemplateDesc) :
    StepsTemplate :=
  { name := t.name ++ "-slurm",
    inputs_artifacts :=
      t.inputs_artifacts.foldl (fun d kv => Dict.insert d kv.1 (newInArtifactVal kv)) [],
    inputs_parameters :=
      t.inputs_parameters.foldl (fun d kv => Dict.insert d kv.1 (newInParamVal kv)) [],
    outputs_artifacts :=
      if t.hasOutputs then
        t.outputs_artifacts.foldl
          (fun d kv => Dict.insert d kv.1 (compOutArtifactVal kv)) []
      else [],
    outputs_parameters :=
      if t.hasOutputs then
        t.outputs_parameters.foldl
          (fun d kv => Dict.insert d kv.1 (compOutParamVal kv)) []
      else [],
    steps := (if t.hasInputArtifacts then [self.prepareStep t] else [])
      ++ [self.runStep t]
      ++ (if t.hasOutputs then [self.collectStep t] else []) }

/-- Accumulator pass implementing re.sub(" *#", "#", s): pending holds the
current run of spaces whose fate depends on the next character. -/
def reSubAux (pending : List Char) : List Char → List Char
  | [] => pending
  | c :: rest =>
    if c == ' ' then reSubAux (pending ++ [' ']) rest
    else if c == '#' then '#' :: reSubAux [] rest
    else pending ++ c :: reSubAux [] rest

/-- The header normalization re.sub(" *#", "#", s) applied at construction. -/
def reSubSpaceHash (s : String) : String := String.mk (reSubAux [] s.data)

/-- Test from the claim wording: the next non-space character is a hash. -/
def nextNonSpaceIsHash (cs : List Char) : Bool :=
  match cs.dropWhile (fun c => c == ' ') with
  | [] => false
  | c :: _ => c == '#'

/-- The claim wording of header normalization: a space is deleted exactly
when the next non-space character is a hash, so every maximal run of spaces
immediately preceding a hash disappears. -/
def specDeleteSpacesBeforeHash : List Char → List Char
  | [] => []
  | c :: rest =>
    if c == ' ' && nextNonSpaceIsHash rest then specDeleteSpacesBeforeHash rest
    else c :: specDeleteSpacesBeforeHash rest

/-- Configuration of the direct-SSH executor, after construction. -/
structure SlurmRemoteExecutor where
  host : String
  port : Nat
  username : String
  password : Option String
  private_key_file : Option String
  workdir : String
  command : Option (List String)
  remote_command : Option (List String)
  image : String
  map_tmp_dir : Bool
  docker_executable : Option String
  action_retries : Int
  header : String
  interval : Nat
  pvc : Option String
  deriving DecidableEq

/-- Embedding of SlurmRemoteExecutor.__init__: the base-class fields are
stored unchanged and the header is normalized with re.sub(" *#", "#", h). -/
def SlurmRemoteExecutor.init (host : String) (port : Nat) (username : String)
    (password : Option String) (private_key_file : Option String) (workdir : String)
    (command : Option (List String)) (remote_command : Option (List String))
    (image : String) (map_tmp_dir : Bool) (docker_executable : Option String)
    (action_retries : Int) (header : String) (interval : Nat) (pvc : Option String) :
    SlurmRemoteExecutor :=
  { host := host, port := port, username := username, password := password,
    private_key_file := private_key_file, workdir := workdir, command := command,
    remote_command := remote_command, image := image, map_tmp_dir := map_tmp_dir,
    docker_executable := docker_executable, action_retries := action_retries,
    header := reSubSpaceHash header, interval := interval, pvc := pvc }

/-- Embedding of SlurmRemoteExecutor.run. The inherited upload primitive is
defined in executor.py outside this module and is passed in as an opaque
function from local path and remote path to the generated shell command. -/
def SlurmRemoteExecutor.run (self : SlurmRemoteExecutor)
    (upload : String → String → String) (image : String)
    (remote_command : List String) : String :=
  let script :=
    match self.docker_executable with
    | none =>
      let map_cmd := if self.map_tmp_dir then "sed -i \"s#/tmp#$(pwd)/tmp#g\" script"
        else ""
      "echo '" ++ self.header ++ "\n" ++ map_cmd ++ "\n"
        ++ String.intercalate " " remote_command ++ " script' > slurm.sh\n"
    | some de =>
      "echo '" ++ self.header ++ "\n" ++ de
        ++ " run -v$(pwd)/tmp:/tmp -v$(pwd)/script:/script -ti " ++ image ++ " "
        ++ String.intercalate " " remote_command ++ " /script' > slurm.sh\n"
  let script := script ++ upload "slurm.sh" (self.workdir ++ "/slurm.sh")
    ++ " || exit 1\n"
  let script := script ++ (if self.pvc.isSome then
      "echo 'jobIdFile: /mnt/job_id.txt' >> param.yaml\n"
    else "echo 'jobIdFile: /tmp/job_id.txt' >> param.yaml\n")
  let script := script ++ "echo 'workdir: " ++ self.workdir ++ "' >> param.yaml\n"
  let script := script ++ "echo 'scriptFile: slurm.sh' >> param.yaml\n"
  let script := script ++ "echo 'interval: " ++ toString self.interval
    ++ "' >> param.yaml\n"
  let script := script ++ "echo 'host: " ++ self.host ++ "' >> param.yaml\n"
  let script := script ++ "echo 'port: " ++ toString self.port ++ "' >> param.yaml\n"
  let script := script ++ "echo 'username: " ++ self.username ++ "' >> param.yaml\n"
  let script := script ++
    match self.password with
    | some pw => "echo 'password: " ++ pw ++ "' >> param.yaml\n"
    | none => ""
  script ++ "./bin/slurm param.yaml || exit 1\n"

/-- The first generated line of the submission script together with the
guarded upload, as accumulated by run before the parameter file lines. -/
def SlurmRemoteExecutor.headPart (self : SlurmRemoteExecutor)
    (upload : String → String → String) (image : String)
    (remote_command : List String) : String :=
  (match self.docker_executable with
   | none =>
     "echo '" ++ self.header ++ "\n"
       ++ (if self.map_tmp_dir then "sed -i \"s#/tmp#$(pwd)/tmp#g\" script" else "")
       ++ "\n" ++ String.intercalate " " remote_command ++ " script' > slurm.sh\n"
   | some de =>
     "echo '" ++ self.header ++ "\n" ++ de
       ++ " run -v$(pwd)/tmp:/tmp -v$(pwd)/script:/script -ti " ++ image ++ " "
       ++ String.intercalate " " remote_command ++ " /script' > slurm.sh\n")
  ++ upload "slurm.sh" (self.workdir ++ "/slurm.sh") ++ " || exit 1\n"

/-- The jobIdFile line of the parameter file: the path depends on whether a
persistent volume claim is configured. -/
def jobIdLine (pvc : Option String) : String :=
  if pvc.isSome then "echo 'jobIdFile: /mnt/job_id.txt' >> param.yaml\n"
  else "echo 'jobIdFile: /tmp/job_id.txt' >> param.yaml\n"

/-- The optional password line of the parameter file: emitted with the
literal configured password exactly when one is configured. -/
def passwordPart : Option String → String
  | some pw => "echo 'password: " ++ pw ++ "' >> param.yaml\n"
  | none => ""

/-- Script of the inner template of a step. -/
def StepT.tplScript (s : StepT) : String := s.template.script

/-- Declared input parameters of the inner template of a step. -/
def StepT.tplInputParams (s : StepT) : Dict InputParameter :=
  s.template.inputs_parameters

/-- Names of the declared output parameters of the inner template of a step. -/
def StepT.tplOutputParamKeys (s : StepT) : List String :=
  Dict.keys s.template.outputs_parameters

/-- Argument wiring of a step. -/
def StepT.stepArgs (s : StepT) : Dict String := s.parameters

/-- The wiring entries of a step whose value references the staged-volume
output parameter of the prepare step. -/
def StepT.prepRefArgs (s : StepT) : Dict String :=
  s.parameters.filter (fun kv => kv.2 == prepareVolRef)

/-- Bool check that a resource attached to a step carries the fixed success
and failure condition strings. -/
def resourceConditionsOk (s : StepT) : Bool :=
  match s.template.resource with
  | none => true
  | some res => res.success_condition == "status.status == Succeeded"
      && res.failure_condition == "status.status == Failed"

/-- Wiring entry of the run step for one original input parameter. -/
def wiringEntry (kv : String × InputParameter) : String × String :=
  (kv.1, inputParamRef kv.1)

/-- The example Template Descriptor of the spec: one input artifact and one
output artifact. -/
def calcTemplate : TemplateDesc :=
  { name := "calc",
    inputs_artifacts := [("input.json", "/in/input.json")],
    outputs_artifacts := [("out.json", "/out/out.json")] }

/-- A rewriter left at its default configuration. -/
def defaultSlurmJobTemplate : SlurmJobTemplate := {}

/-- Sample template with one entry in each of the four name maps. -/
def wT1 : TemplateDesc :=
  { name := "w1",
    inputs_parameters := [("alpha", { value := none })],
    inputs_artifacts := [("art", "/a/b.txt")],
    outputs_parameters := [("res", { value_from_path := some "/r/res.txt" })],
    outputs_artifacts := [("out", "/o/out.txt")],
    command := ["bash"],
    script := "echo hi" }

/-- Sample template with one input parameter and neither artifacts nor
outputs. -/
def wT2 : TemplateDesc :=
  { name := "w2",
    inputs_parameters := [("alpha", { value := none })] }

lemma Dict.keys_nil {α : Type} : Dict.keys ([] : Dict α) = [] := rfl

lemma Dict.keys_cons {α : Type} (p : String × α) (d : Dict α) :
    Dict.keys (p :: d) = p.1 :: Dict.keys d := rfl

lemma Dict.keys_append {α : Type} (a b : Dict α) :
    Dict.keys (a ++ b) = Dict.keys a ++ Dict.keys b := by
  simp [Dict.keys]

lemma Dict.insert_of_not_mem {α : Type} {d : Dict α} {k : String} (v : α)
    (h : k ∉ Dict.keys d) : Dict.insert d k v = d ++ [(k, v)] := by
  rw [Dict.insert, if_neg]
  intro hc
  rw [List.any_eq_true] at hc
  obtain ⟨p, hp, he⟩ := hc
  exact h (List.mem_map.mpr ⟨p, hp, beq_iff_eq.mp he⟩)

lemma foldl_insert_eq {α β : Type} (g : String × α → β) :
    ∀ (l : Dict α) (acc : Dict β), (Dict.keys l).Nodup →
      (∀ kv ∈ l, kv.1 ∉ Dict.keys acc) →
      List.foldl (fun d kv => Dict.insert d kv.1 (g kv)) acc l
        = acc ++ l.map (fun kv => (kv.1, g kv)) := by
  intro l
  induction l with
  | nil => intro acc _ _; simp
  | cons kv rest ih =>
    intro acc hnd hdisj
    rw [Dict.keys_cons, List.nodup_cons] at hnd
    have hstep : ∀ kv' ∈ rest, kv'.1 ∉ Dict.keys (acc ++ [(kv.1, g kv)]) := by
      intro kv' h' hmem
      rw [Dict.keys_append] at hmem
      rcases List.mem_append.mp hmem with hmem | hmem
      · exact hdisj kv' (List.mem_cons_of_mem _ h') hmem
      · have he : kv'.1 = kv.1 := by simp [Dict.keys] at hmem; exact hmem
        exact hnd.1 (he ▸ List.mem_map.mpr ⟨kv', h', rfl⟩)
    rw [List.foldl_cons,
      Dict.insert_of_not_mem (g kv) (hdisj kv (List.mem_cons_self _ _)),
      ih (acc ++ [(kv.1, g kv)]) hnd.2 hstep]
    simp

lemma keys_pair_map {α β : Type} (g : String × α → β) (l : Dict α) :
    Dict.keys (l.map (fun kv => (kv.1, g kv))) = Dict.keys l := by
  induction l with
  | nil => rfl
  | cons kv rest ih => simpa [Dict.keys] using congrArg (List.cons kv.1) ih

lemma map_replace_of_not_mem {α : Type} {m : Dict α} {k : String} (v : α)
    (h : k ∉ Dict.keys m) :
    m.map (fun p => if p.1 == k then (k, v) else p) = m := by
  induction m with
  | nil => rfl
  | cons p rest ih =>
    rw [Dict.keys_cons, List.mem_cons] at h
    push_neg at h
    rw [List.map_cons, if_neg (by simp [beq_iff_eq]; exact fun e => h.1 e.symm),
      ih h.2]

lemma filter_eq_nil_of_values_ne (m : Dict String) (v0 : String)
    (hv : ∀ kv ∈ m, kv.2 ≠ v0) :
    m.filter (fun kv => kv.2 == v0) = [] := by
  induction m with
  | nil => rfl
  | cons p rest ih =>
    rw [List.filter_cons,
      if_neg (by simp [beq_iff_eq]; exact hv p (List.mem_cons_self _ _))]
    exact ih (fun kv h => hv kv (List.mem_cons_of_mem _ h))

lemma filter_map_replace_eq_single :
    ∀ (m : Dict String) (k0 v0 : String), (∀ kv ∈ m, kv.2 ≠ v0) →
      (Dict.keys m).Nodup → k0 ∈ Dict.keys m →
      (m.map (fun p => if p.1 == k0 then (k0, v0) else p)).filter
          (fun kv => kv.2 == v0) = [(k0, v0)] := by
  intro m
  induction m with
  | nil => intro k0 v0 _ _ hmem; simp [Dict.keys] at hmem
  | cons p rest ih =>
    intro k0 v0 hv hnd hmem
    rw [Dict.keys_cons, List.nodup_cons] at hnd
    by_cases hp : p.1 = k0
    · rw [List.map_cons, if_pos (beq_iff_eq.mpr hp),
        map_replace_of_not_mem v0 (hp ▸ hnd.1),
        List.filter_cons, if_pos (by simp),
        filter_eq_nil_of_values_ne rest v0
          (fun kv h => hv kv (List.mem_cons_of_mem _ h))]
    · rw [List.map_cons, if_neg (by simp [beq_iff_eq, hp]),
        List.filter_cons,
        if_neg (by simp [beq_iff_eq]; exact hv p (List.mem_cons_self _ _))]
      apply ih k0 v0 (fun kv h => hv kv (List.mem_cons_of_mem _ h)) hnd.2
      rw [Dict.keys_cons] at hmem
      rcases List.mem_cons.mp hmem with he | hm
      · exact absurd he.symm hp
      · exact hm

lemma filter_insert_eq_single (m : Dict String) (k0 v0 : String)
    (hv : ∀ kv ∈ m, kv.2 ≠ v0) (hnd : (Dict.keys m).Nodup) :
    (Dict.insert m k0 v0).filter (fun kv => kv.2 == v0) = [(k0, v0)] := by
  by_cases hmem : k0 ∈ Dict.keys m
  · rw [Dict.insert, if_pos ?hany]
    case hany =>
      rw [List.any_eq_true]
      obtain ⟨p, hp, hfst⟩ := List.mem_map.mp hmem
      exact ⟨p, hp, beq_iff_eq.mpr hfst⟩
    exact filter_map_replace_eq_single m k0 v0 hv hnd hmem
  · rw [Dict.insert_of_not_mem v0 hmem, List.filter_append,
      filter_eq_nil_of_values_ne m v0 hv]
    simp

lemma isPrefixOf_append_self : ∀ (p t : List Char), p.isPrefixOf (p ++ t) = true := by
  intro p t
  induction p with
  | nil => simp [List.isPrefixOf]
  | cons c p' ih => simp [List.isPrefixOf, ih]

lemma substrAux_nil_pat : ∀ (s : List Char), substrAux [] s = true := by
  intro s; cases s <;> simp [substrAux, List.isPrefixOf]

lemma substrAux_self_append (p b : List Char) : substrAux p (p ++ b) = true := by
  cases p with
  | nil => simp [substrAux_nil_pat]
  | cons c p' =>
    rw [List.cons_append]
    simp only [substrAux]
    rw [← List.cons_append, isPrefixOf_append_self]
    simp

lemma substrAux_append_mid : ∀ (a p b : List Char),
    substrAux p (a ++ (p ++ b)) = true := by
  intro a p b
  induction a with
  | nil => rw [List.nil_append]; exact substrAux_self_append p b
  | cons c a' ih =>
    rw [List.cons_append]
    simp only [substrAux]
    rw [ih]
    simp

lemma containsSub_append_mid (pat a b : String) :
    containsSub pat (a ++ (pat ++ b)) = true := by
  show substrAux pat.data ((a ++ (pat ++ b)).data) = true
  rw [String.data_append, String.data_append]
  exact substrAux_append_mid a.data pat.data b.data

lemma inputParamRef_ne_prepareVolRef (n : String) :
    inputParamRef n ≠ prepareVolRef := by
  intro h
  have h2 := congrArg String.data h
  simp only [inputParamRef, prepareVolRef] at h2
  rw [String.data_append, String.data_append] at h2
  have hlen : (3 : Nat) ≤ "\x7b\x7binputs.parameters.".data.length := by decide
  have e1 : List.take 3 (("\x7b\x7binputs.parameters.".data ++ n.data)
        ++ "\x7d\x7d".data)
      = List.take 3 "\x7b\x7binputs.parameters.".data := by
    rw [List.take_append_of_le_length (by rw [List.length_append]; omega),
      List.take_append_of_le_length hlen]
  have h3 := congrArg (List.take 3) h2
  rw [e1] at h3
  exact absurd h3 (by decide)

lemma nextNonSpace_cons_space (t : List Char) :
    nextNonSpaceIsHash (' ' :: t) = nextNonSpaceIsHash t := by
  simp [nextNonSpaceIsHash, List.dropWhile_cons]

lemma nextNonSpace_over_spaces :
    ∀ (p : List Char), (∀ c ∈ p, c = ' ') → ∀ (x : Char) (r : List Char),
      (x == ' ') = false → nextNonSpaceIsHash (p ++ x :: r) = (x == '#') := by
  intro p
  induction p with
  | nil =>
    intro _ x r hx
    rw [List.nil_append]
    simp [nextNonSpaceIsHash, List.dropWhile_cons, hx]
  | cons c p' ih =>
    intro hall x r hx
    have hc : c = ' ' := hall c (List.mem_cons_self _ _)
    subst hc
    rw [List.cons_append, nextNonSpace_cons_space,
      ih (fun c h => hall c (List.mem_cons_of_mem _ h)) x r hx]

lemma nextNonSpace_all_spaces (p : List Char) (h : ∀ c ∈ p, c = ' ') :
    nextNonSpaceIsHash p = false := by
  have hd : p.dropWhile (fun c => c == ' ') = [] := by
    rw [List.dropWhile_eq_nil_iff]
    intro x hx
    simp [beq_iff_eq, h x hx]
  simp [nextNonSpaceIsHash, hd]

lemma specDelete_all_spaces : ∀ (p : List Char), (∀ c ∈ p, c = ' ') →
    specDeleteSpacesBeforeHash p = p := by
  intro p
  induction p with
  | nil => intro _; rfl
  | cons c p' ih =>
    intro hall
    have hc : c = ' ' := hall c (List.mem_cons_self _ _)
    subst hc
    have hall' : ∀ c ∈ p', c = ' ' := fun c h => hall c (List.mem_cons_of_mem _ h)
    simp only [specDeleteSpacesBeforeHash, nextNonSpace_all_spaces p' hall']
    simp [ih hall']

lemma specDelete_spaces_hash : ∀ (p : List Char), (∀ c ∈ p, c = ' ') →
    ∀ (r : List Char), specDeleteSpacesBeforeHash (p ++ '#' :: r)
      = '#' :: specDeleteSpacesBeforeHash r := by
  intro p
  induction p with
  | nil => intro _ r; simp [specDeleteSpacesBeforeHash]
  | cons c p' ih =>
    intro hall r
    have hc : c = ' ' := hall c (List.mem_cons_self _ _)
    subst hc
    have hall' : ∀ c ∈ p', c = ' ' := fun c h => hall c (List.mem_cons_of_mem _ h)
    rw [List.cons_append]
    simp only [specDeleteSpacesBeforeHash]
    rw [nextNonSpace_over_spaces p' hall' '#' r (by decide)]
    simp [ih hall' r]

lemma specDelete_spaces_other : ∀ (p : List Char), (∀ c ∈ p, c = ' ') →
    ∀ (x : Char) (r : List Char), (x == ' ') = false → (x == '#') = false →
    specDeleteSpacesBeforeHash (p ++ x :: r)
      = p ++ x :: specDeleteSpacesBeforeHash r := by
  intro p
  induction p with
  | nil => intro _ x r hx _; simp [specDeleteSpacesBeforeHash, hx]
  | cons c p' ih =>
    intro hall x r hx hh
    have hc : c = ' ' := hall c (List.mem_cons_self _ _)
    subst hc
    have hall' : ∀ c ∈ p', c = ' ' := fun c h => hall c (List.mem_cons_of_mem _ h)
    rw [List.cons_append]
    simp only [specDeleteSpacesBeforeHash]
    rw [nextNonSpace_over_spaces p' hall' x r hx, hh]
    simp [ih hall' x r hx hh]

lemma reSubAux_spec : ∀ (cs pending : List Char), (∀ c ∈ pending, c = ' ') →
    reSubAux pending cs = specDeleteSpacesBeforeHash (pending ++ cs) := by
  intro cs
  induction cs with
  | nil =>
    intro pending hall
    rw [List.append_nil]
    simp only [reSubAux]
    exact (specDelete_all_spaces pending hall).symm
  | cons c rest ih =>
    intro pending hall
    by_cases hsp : c = ' '
    · subst hsp
      simp only [reSubAux, if_pos (by decide : ((' ' : Char) == ' ') = true)]
      rw [ih (pending ++ [' ']) (by
        intro x hx
        rcases List.mem_append.mp hx with h | h
        · exact hall x h
        · simpa using h)]
      rw [List.append_assoc]
      rfl
    · by_cases hh : c = '#'
      · subst hh
        simp only [reSubAux]
        rw [if_neg (by decide), if_pos (by decide)]
        rw [ih [] (by simp), List.nil_append]
        exact (specDelete_spaces_hash pending hall rest).symm
      · simp only [reSubAux]
        rw [if_neg (by simp [beq_iff_eq, hsp]), if_neg (by simp [beq_iff_eq, hh])]
        rw [ih [] (by simp), List.nil_append]
        exact (specDelete_spaces_other pending hall c rest
          (by simp [beq_iff_eq, hsp]) (by simp [beq_iff_eq, hh])).symm

lemma reSubSpaceHash_eq_spec (s : String) :
    reSubSpaceHash s = String.mk (specDeleteSpacesBeforeHash s.data) := by
  simp only [reSubSpaceHash]
  rw [reSubAux_spec s.data [] (by simp), List.nil_append]

lemma hasOutputs_false_iff (t : TemplateDesc) :
    t.hasOutputs = false ↔ t.outputs_parameters = [] ∧ t.outputs_artifacts = [] := by
  simp [TemplateDesc.hasOutputs, List.isEmpty_iff]

lemma run_decomp (self : SlurmRemoteExecutor) (upload : String → String → String)
    (image : String) (rc : List String) :
    SlurmRemoteExecutor.run self upload image rc
      = SlurmRemoteExecutor.headPart self upload image rc
        ++ (jobIdLine self.pvc
        ++ (("echo 'workdir: " ++ self.workdir ++ "' >> param.yaml\n")
        ++ ("echo 'scriptFile: slurm.sh' >> param.yaml\n"
        ++ (("echo 'interval: " ++ toString self.interval ++ "' >> param.yaml\n")
        ++ (("echo 'host: " ++ self.host ++ "' >> param.yaml\n")
        ++ (("echo 'port: " ++ toString self.port ++ "' >> param.yaml\n")
        ++ (("echo 'username: " ++ self.username ++ "' >> param.yaml\n")
        ++ (passwordPart self.password
        ++ "./bin/slurm param.yaml || exit 1\n")))))))) := by
  cases hd : self.docker_executable <;> cases hp : self.password <;>
    simp only [SlurmRemoteExecutor.run, SlurmRemoteExecutor.headPart, jobIdLine,
      passwordPart, hd, hp, String.append_assoc]

lemma headPart_decomp (e : SlurmRemoteExecutor) (upload : String → String → String)
    (image : String) (rc : List String) :
    ∃ r : String, SlurmRemoteExecutor.headPart e upload image rc
      = "echo '" ++ (e.header ++ r) := by
  cases hd : e.docker_executable with
  | none =>
    exact ⟨"\n" ++ (if e.map_tmp_dir then "sed -i \"s#/tmp#$(pwd)/tmp#g\" script" else "")
      ++ "\n" ++ String.intercalate " " rc ++ " script' > slurm.sh\n"
      ++ (upload "slurm.sh" (e.workdir ++ "/slurm.sh") ++ " || exit 1\n"), by
        simp [SlurmRemoteExecutor.headPart, hd, String.append_assoc]⟩
  | some de =>
    exact ⟨"\n" ++ de ++ " run -v$(pwd)/tmp:/tmp -v$(pwd)/script:/script -ti "
      ++ image ++ " " ++ String.intercalate " " rc ++ " /script' > slurm.sh\n"
      ++ (upload "slurm.sh" (e.workdir ++ "/slurm.sh") ++ " || exit 1\n"), by
        simp [SlurmRemoteExecutor.headPart, hd, String.append_assoc]⟩

/-- C1: render is name-preserving: the composite template declares exactly
the input parameter, input artifact, output parameter and output artifact
names of the original template (here proved in the stronger form of ordered
key-list equality, which entails equality of the name sets). -/
theorem slurm_render_name_preserving (self : SlurmJobTemplate) (t : TemplateDesc)
    (h1 : (Dict.keys t.inputs_parameters).Nodup)
    (h2 : (Dict.keys t.inputs_artifacts).Nodup)
    (h3 : (Dict.keys t.outputs_parameters).Nodup)
    (h4 : (Dict.keys t.outputs_artifacts).Nodup) :
    Dict.keys (self.render t).inputs_parameters = Dict.keys t.inputs_parameters
    ∧ Dict.keys (self.render t).inputs_artifacts = Dict.keys t.inputs_artifacts
    ∧ Dict.keys (self.render t).outputs_parameters = Dict.keys t.outputs_parameters
    ∧ Dict.keys (self.render t).outputs_artifacts = Dict.keys t.outputs_artifacts := by
  have hin : (self.render t).inputs_parameters
      = t.inputs_parameters.map (fun kv => (kv.1, newInParamVal kv)) := by
    simp only [SlurmJobTemplate.render]
    rw [foldl_insert_eq newInParamVal t.inputs_parameters [] h1 (by simp [Dict.keys])]
    simp
  have hia : (self.render t).inputs_artifacts
      = t.inputs_artifacts.map (fun kv => (kv.1, newInArtifactVal kv)) := by
    simp only [SlurmJobTemplate.render]
    rw [foldl_insert_eq newInArtifactVal t.inputs_artifacts [] h2 (by simp [Dict.keys])]
    simp
  refine ⟨by rw [hin, keys_pair_map], by rw [hia, keys_pair_map], ?_, ?_⟩
  · cases ho : t.hasOutputs
    · obtain ⟨hp, _⟩ := (hasOutputs_false_iff t).mp ho
      simp only [SlurmJobTemplate.render, ho]
      simp [hp, Dict.keys]
    · have hout : (self.render t).outputs_parameters
          = t.outputs_parameters.map (fun kv => (kv.1, compOutParamVal kv)) := by
        simp only [SlurmJobTemplate.render, ho]
        rw [if_true,
          foldl_insert_eq compOutParamVal t.outputs_parameters [] h3 (by simp [Dict.keys])]
        simp
      rw [hout, keys_pair_map]
  · cases ho : t.hasOutputs
    · obtain ⟨_, ha⟩ := (hasOutputs_false_iff t).mp ho
      simp only [SlurmJobTemplate.render, ho]
      simp [ha, Dict.keys]
    · have hout : (self.render t).outputs_artifacts
          = t.outputs_artifacts.map (fun kv => (kv.1, compOutArtifactVal kv)) := by
        simp only [SlurmJobTemplate.render, ho]
        rw [if_true,
          foldl_insert_eq compOutArtifactVal t.outputs_artifacts []
            h4 (by simp [Dict.keys])]
        simp
      rw [hout, keys_pair_map]

/-- Witness for C1 at a concrete rewriter and template. -/
theorem slurm_render_name_preserving_witness :
    Dict.keys (defaultSlurmJobTemplate.render wT1).inputs_parameters
      = Dict.keys wT1.inputs_parameters
    ∧ Dict.keys (defaultSlurmJobTemplate.render wT1).inputs_artifacts
      = Dict.keys wT1.inputs_artifacts
    ∧ Dict.keys (defaultSlurmJobTemplate.render wT1).outputs_parameters
      = Dict.keys wT1.outputs_parameters
    ∧ Dict.keys (defaultSlurmJobTemplate.render wT1).outputs_artifacts
      = Dict.keys wT1.outputs_artifacts :=
  slurm_render_name_preserving defaultSlurmJobTemplate wT1 (by decide) (by decide)
    (by decide) (by decide)

/-- C2: with zero input artifacts there is no prepare step, the run step
comes first, its template re-declares the original input parameters, and its
argument wiring passes every original input parameter as a placeholder
reference to the composite input of the same name. -/
theorem slurm_render_no_prepare (self : SlurmJobTemplate) (t : TemplateDesc)
    (hart : t.inputs_artifacts = [])
    (hnd : (Dict.keys t.inputs_parameters).Nodup) :
    "slurm-prepare" ∉ ((self.render t).steps.map StepT.name)
    ∧ ((self.render t).steps.head?.map StepT.name) = some "slurm-run"
    ∧ ((self.render t).steps.head?.map StepT.tplInputParams) = some t.inputs_parameters
    ∧ ((self.render t).steps.head?.map StepT.stepArgs)
        = some (t.inputs_parameters.map wiringEntry) := by
  have hia : t.hasInputArtifacts = false := by
    simp [TemplateDesc.hasInputArtifacts, hart]
  have hsteps : (self.render t).steps
      = self.runStep t :: (if t.hasOutputs then [self.collectStep t] else []) := by
    simp only [SlurmJobTemplate.render, hia]
    simp
  have hwire : SlurmJobTemplate.runWiring t = t.inputs_parameters.map wiringEntry := by
    simp only [SlurmJobTemplate.runWiring, hia]
    rw [foldl_insert_eq wiringRef t.inputs_parameters [] hnd (by simp [Dict.keys]),
      List.nil_append]
    simp
    exact fun _ _ _ => rfl
  refine ⟨?_, ?_, ?_, ?_⟩
  · rw [hsteps]
    cases ho : t.hasOutputs <;>
      simp [SlurmJobTemplate.runStep, SlurmJobTemplate.collectStep]
  · rw [hsteps]; simp [SlurmJobTemplate.runStep]
  · rw [hsteps]
    simp [SlurmJobTemplate.runStep, SlurmJobTemplate.runTemplate,
      StepT.tplInputParams, hia]
  · rw [hsteps]
    simp [SlurmJobTemplate.runStep, StepT.stepArgs, hwire]

/-- Witness for C2 at a concrete rewriter and template. -/
theorem slurm_render_no_prepare_witness :
    "slurm-prepare" ∉ ((defaultSlurmJobTemplate.render wT2).steps.map StepT.name)
    ∧ ((defaultSlurmJobTemplate.render wT2).steps.head?.map StepT.name)
        = some "slurm-run"
    ∧ ((defaultSlurmJobTemplate.render wT2).steps.head?.map StepT.tplInputParams)
        = some wT2.inputs_parameters
    ∧ ((defaultSlurmJobTemplate.render wT2).steps.head?.map StepT.stepArgs)
        = some (wT2.inputs_parameters.map wiringEntry) :=
  slurm_render_no_prepare defaultSlurmJobTemplate wT2 rfl (by decide)

/-- C3: with at least one input artifact the prepare step comes first, its
template declares exactly the one output parameter dflow_vol_path, the run
step comes second, and exactly one wiring entry of the run step references
the prepare output, namely dflow_vol_path. -/
theorem slurm_render_prepare_wiring (self : SlurmJobTemplate) (t : TemplateDesc)
    (hart : t.inputs_artifacts ≠ [])
    (hnd : (Dict.keys t.inputs_parameters).Nodup) :
    ((self.render t).steps.head?.map StepT.name) = some "slurm-prepare"
    ∧ ((self.render t).steps.head?.map StepT.tplOutputParamKeys)
        = some ["dflow_vol_path"]
    ∧ (((self.render t).steps[1]?).map StepT.name) = some "slurm-run"
    ∧ (((self.render t).steps[1]?).map StepT.prepRefArgs)
        = some [("dflow_vol_path", prepareVolRef)] := by
  have hia : t.hasInputArtifacts = true := by
    simp [TemplateDesc.hasInputArtifacts, List.isEmpty_iff, hart]
  have hsteps : (self.render t).steps
      = self.prepareStep t :: self.runStep t
        :: (if t.hasOutputs then [self.collectStep t] else []) := by
    simp only [SlurmJobTemplate.render, hia]
    simp
  refine ⟨?_, ?_, ?_, ?_⟩
  · rw [hsteps]; simp [SlurmJobTemplate.prepareStep]
  · rw [hsteps]
    simp [SlurmJobTemplate.prepareStep, SlurmJobTemplate.prepareTemplate,
      StepT.tplOutputParamKeys, Dict.insert, Dict.keys]
  · rw [hsteps]; simp [SlurmJobTemplate.runStep]
  · rw [hsteps]
    have hone : StepT.prepRefArgs (self.runStep t)
        = [("dflow_vol_path", prepareVolRef)] := by
      simp only [StepT.prepRefArgs, SlurmJobTemplate.runStep,
        SlurmJobTemplate.runWiring, hia, if_pos rfl]
      rw [foldl_insert_eq wiringRef t.inputs_parameters [] hnd (by simp [Dict.keys]),
        List.nil_append]
      apply filter_insert_eq_single
      · intro kv hkv
        obtain ⟨kv0, _, hkveq⟩ := List.mem_map.mp hkv
        rw [← hkveq]
        exact inputParamRef_ne_prepareVolRef kv0.1
      · rw [keys_pair_map]; exact hnd
    simp [hone]

/-- Witness for C3 at a concrete rewriter and template. -/
theorem slurm_render_prepare_wiring_witness :
    ((defaultSlurmJobTemplate.render wT1).steps.head?.map StepT.name)
        = some "slurm-prepare"
    ∧ ((defaultSlurmJobTemplate.render wT1).steps.head?.map StepT.tplOutputParamKeys)
        = some ["dflow_vol_path"]
    ∧ (((defaultSlurmJobTemplate.render wT1).steps[1]?).map StepT.name)
        = some "slurm-run"
    ∧ (((defaultSlurmJobTemplate.render wT1).steps[1]?).map StepT.prepRefArgs)
        = some [("dflow_vol_path", prepareVolRef)] :=
  slurm_render_prepare_wiring defaultSlurmJobTemplate wT1 (by decide) (by decide)

/-- C4: with zero output parameters and zero output artifacts there is no
collect step and the composite template declares zero output parameters and
zero output artifacts. -/
theorem slurm_render_no_collect (self : SlurmJobTemplate) (t : TemplateDesc)
    (hop : t.outputs_parameters = []) (hoa : t.outputs_artifacts = []) :
    "slurm-collect" ∉ ((self.render t).steps.map StepT.name)
    ∧ (self.render t).outputs_parameters = []
    ∧ (self.render t).outputs_artifacts = [] := by
  have ho : t.hasOutputs = false := by simp [TemplateDesc.hasOutputs, hop, hoa]
  refine ⟨?_, ?_, ?_⟩
  · simp only [SlurmJobTemplate.render, ho]
    cases hia : t.hasInputArtifacts <;>
      simp [SlurmJobTemplate.prepareStep, SlurmJobTemplate.runStep]
  · simp only [SlurmJobTemplate.render, ho]; simp
  · simp only [SlurmJobTemplate.render, ho]; simp

/-- Witness for C4 at a concrete rewriter and template. -/
theorem slurm_render_no_collect_witness :
    "slurm-collect" ∉ ((defaultSlurmJobTemplate.render wT2).steps.map StepT.name)
    ∧ (defaultSlurmJobTemplate.render wT2).outputs_parameters = []
    ∧ (defaultSlurmJobTemplate.render wT2).outputs_artifacts = [] :=
  slurm_render_no_collect defaultSlurmJobTemplate wT2 rfl rfl

/-- C5: every constructed SlurmJob carries the fixed success and failure
condition strings, and every resource attached to a step of any rendered
composite carries exactly those strings, independent of all inputs. -/
theorem slurm_fixed_conditions :
    (∀ (h : String) (ns : Option (Dict String)) (p : Option PrepareStanza)
       (r : Option ResultsStanza) (m : Bool) (w : String)
       (rc : Option (List String)),
       (SlurmJob.init h ns p r m w rc).success_condition
           = "status.status == Succeeded"
       ∧ (SlurmJob.init h ns p r m w rc).failure_condition
           = "status.status == Failed")
    ∧ ∀ (self : SlurmJobTemplate) (t : TemplateDesc),
        (self.render t).steps.all resourceConditionsOk = true := by
  refine ⟨fun _ _ _ _ _ _ _ => ⟨rfl, rfl⟩, ?_⟩
  intro self t
  simp only [SlurmJobTemplate.render]
  cases hia : t.hasInputArtifacts <;> cases ho : t.hasOutputs <;>
    simp [List.all_append, resourceConditionsOk,
      SlurmJobTemplate.prepareStep, SlurmJobTemplate.prepareTemplate,
      SlurmJobTemplate.runStep, SlurmJobTemplate.runTemplate,
      SlurmJobTemplate.collectStep, SlurmJobTemplate.collectTemplate,
      SlurmJobTemplate.slurmJobOf, SlurmJob.init]

/-- C6: the batch body of every manifest is exactly header, mkdir, cd, and a
heredoc piping the script through the remap filter when map_tmp_dir is set
and through the configured remote command, which defaults to the command of
the template. -/
theorem slurm_manifest_batch_layout (job : SlurmJob) (t : TemplateDesc) :
    (job.get_manifest t).batch
      = job.header ++ "\nmkdir -p " ++ job.workdir ++ "\ncd " ++ job.workdir
        ++ "\ncat <<EOF "
        ++ (if job.map_tmp_dir then " | sed \"s#/tmp#$(pwd)/tmp#g\" " else "")
        ++ " | " ++ String.intercalate " " (job.remote_command.getD t.command)
        ++ "\n" ++ t.script ++ "\nEOF" := by
  cases hrc : job.remote_command <;> simp [SlurmJob.get_manifest, hrc, Option.getD]

/-- C7 counterexample: at the calc template of the spec the prepare script
does not contain the lines claimed (the generated copy destinations carry a
doubled slash, /workdir//in and /mnt/workdir//out), so the claim is false as
stated. -/
theorem slurm_calc_example_counterexample :
    ((defaultSlurmJobTemplate.render calcTemplate).steps.head?.map StepT.tplScript)
      = some "mkdir -p /workdir//in\ncp -r /in/input.json /workdir//in/input.json\n"
    ∧ containsSub "mkdir -p /in"
        "mkdir -p /workdir//in\ncp -r /in/input.json /workdir//in/input.json\n"
      = false
    ∧ containsSub "cp -r /in/input.json /workdir/in/input.json"
        "mkdir -p /workdir//in\ncp -r /in/input.json /workdir//in/input.json\n"
      = false
    ∧ (((defaultSlurmJobTemplate.render calcTemplate).steps[2]?).map StepT.tplScript)
      = some "mkdir -p `dirname /out/out.json` && cp -r /mnt/workdir//out/out.json /out/out.json\n"
    ∧ containsSub
        "mkdir -p `dirname /out/out.json` && cp -r /mnt/workdir/out/out.json /out/out.json"
        "mkdir -p `dirname /out/out.json` && cp -r /mnt/workdir//out/out.json /out/out.json\n"
      = false :=
  ⟨by decide, by decide, by decide, by decide, by decide⟩

/-- C7 amended: the calc template rewrites into the composite calc-slurm with
steps slurm-prepare, slurm-run, slurm-collect; the prepare script stages the
artifact with mkdir -p /workdir//in and cp -r /in/input.json
/workdir//in/input.json, and the collect script copies the output with
mkdir -p dirname of /out/out.json and cp -r /mnt/workdir//out/out.json
(the destinations carry a doubled slash because the artifact paths are
absolute). -/
theorem slurm_calc_example_amended :
    (defaultSlurmJobTemplate.render calcTemplate).name = "calc-slurm"
    ∧ ((defaultSlurmJobTemplate.render calcTemplate).steps.map StepT.name)
        = ["slurm-prepare", "slurm-run", "slurm-collect"]
    ∧ ((defaultSlurmJobTemplate.render calcTemplate).steps.head?.map StepT.tplScript)
        = some "mkdir -p /workdir//in\ncp -r /in/input.json /workdir//in/input.json\n"
    ∧ (((defaultSlurmJobTemplate.render calcTemplate).steps[2]?).map StepT.tplScript)
        = some "mkdir -p `dirname /out/out.json` && cp -r /mnt/workdir//out/out.json /out/out.json\n" :=
  ⟨by decide, by decide, by decide, by decide⟩

/-- C8: the generated submission script is the head part, then the parameter
file lines for jobIdFile, workdir, scriptFile, interval, host, port and
username, then the password line exactly when a password is configured and
carrying the literal configured value, then the submission call. -/
theorem slurm_param_file_password (self : SlurmRemoteExecutor)
    (upload : String → String → String) (image : String) (rc : List String) :
    (SlurmRemoteExecutor.run self upload image rc
      = SlurmRemoteExecutor.headPart self upload image rc
        ++ (jobIdLine self.pvc
        ++ (("echo 'workdir: " ++ self.workdir ++ "' >> param.yaml\n")
        ++ ("echo 'scriptFile: slurm.sh' >> param.yaml\n"
        ++ (("echo 'interval: " ++ toString self.interval ++ "' >> param.yaml\n")
        ++ (("echo 'host: " ++ self.host ++ "' >> param.yaml\n")
        ++ (("echo 'port: " ++ toString self.port ++ "' >> param.yaml\n")
        ++ (("echo 'username: " ++ self.username ++ "' >> param.yaml\n")
        ++ (passwordPart self.password
        ++ "./bin/slurm param.yaml || exit 1\n")))))))))
    ∧ passwordPart none = ""
    ∧ ∀ pw, passwordPart (some pw) = "echo 'password: " ++ pw ++ "' >> param.yaml\n" :=
  ⟨run_decomp self upload image rc, rfl, fun _ => rfl⟩

/-- C9: the upload of slurm.sh and the invocation of the remote submission
tool are each immediately followed by the unconditional suffix for exit 1,
and the submission call ends the script, so nothing further runs. -/
theorem slurm_fail_fast (self : SlurmRemoteExecutor)
    (upload : String → String → String) (image : String) (rc : List String) :
    ∃ a b : String, SlurmRemoteExecutor.run self upload image rc
      = a ++ ((upload "slurm.sh" (self.workdir ++ "/slurm.sh") ++ " || exit 1\n")
        ++ (b ++ "./bin/slurm param.yaml || exit 1\n")) := by
  cases hd : self.docker_executable with
  | none =>
    refine ⟨"echo '" ++ self.header ++ "\n"
      ++ (if self.map_tmp_dir then "sed -i \"s#/tmp#$(pwd)/tmp#g\" script" else "")
      ++ "\n" ++ String.intercalate " " rc ++ " script' > slurm.sh\n",
      jobIdLine self.pvc
        ++ ("echo 'workdir: " ++ self.workdir ++ "' >> param.yaml\n")
        ++ "echo 'scriptFile: slurm.sh' >> param.yaml\n"
        ++ ("echo 'interval: " ++ toString self.interval ++ "' >> param.yaml\n")
        ++ ("echo 'host: " ++ self.host ++ "' >> param.yaml\n")
        ++ ("echo 'port: " ++ toString self.port ++ "' >> param.yaml\n")
        ++ ("echo 'username: " ++ self.username ++ "' >> param.yaml\n")
        ++ passwordPart self.password, ?_⟩
    cases hp : self.password <;>
      simp only [SlurmRemoteExecutor.run, jobIdLine, passwordPart, hd, hp,
        String.append_assoc]
  | some de =>
    refine ⟨"echo '" ++ self.header ++ "\n" ++ de
      ++ " run -v$(pwd)/tmp:/tmp -v$(pwd)/script:/script -ti " ++ image ++ " "
      ++ String.intercalate " " rc ++ " /script' > slurm.sh\n",
      jobIdLine self.pvc
        ++ ("echo 'workdir: " ++ self.workdir ++ "' >> param.yaml\n")
        ++ "echo 'scriptFile: slurm.sh' >> param.yaml\n"
        ++ ("echo 'interval: " ++ toString self.interval ++ "' >> param.yaml\n")
        ++ ("echo 'host: " ++ self.host ++ "' >> param.yaml\n")
        ++ ("echo 'port: " ++ toString self.port ++ "' >> param.yaml\n")
        ++ ("echo 'username: " ++ self.username ++ "' >> param.yaml\n")
        ++ passwordPart self.password, ?_⟩
    cases hp : self.password <;>
      simp only [SlurmRemoteExecutor.run, jobIdLine, passwordPart, hd, hp,
        String.append_assoc]

/-- C10: the constructor normalizes the header by deleting every maximal run
of spaces immediately before a hash; the stored header can therefore differ
from the supplied one, and it is the stored header that every generated
submission script embeds. -/
theorem slurm_header_normalized :
    (∀ (host : String) (port : Nat) (username : String)
       (password private_key_file : Option String) (workdir : String)
       (command remote_command : Option (List String)) (image : String)
       (map_tmp_dir : Bool) (docker_executable : Option String)
       (action_retries : Int) (header : String) (interval : Nat)
       (pvc : Option String),
       (SlurmRemoteExecutor.init host port username password private_key_file
          workdir command remote_command image map_tmp_dir docker_executable
          action_retries header interval pvc).header
         = String.mk (specDeleteSpacesBeforeHash header.data))
    ∧ reSubSpaceHash "  #SBATCH -N 1" ≠ "  #SBATCH -N 1"
    ∧ ∀ (e : SlurmRemoteExecutor) (upload : String → String → String)
        (image : String) (rc : List String),
        containsSub e.header (SlurmRemoteExecutor.run e upload image rc) = true := by
  refine ⟨?_, by decide, ?_⟩
  · intro _ _ _ _ _ _ _ _ _ _ _ _ header _ _
    exact reSubSpaceHash_eq_spec header
  · intro e upload image rc
    obtain ⟨tail, ht⟩ : ∃ tail, SlurmRemoteExecutor.run e upload image rc
        = SlurmRemoteExecutor.headPart e upload image rc ++ tail :=
      ⟨_, run_decomp e upload image rc⟩
    obtain ⟨r, hr⟩ := headPart_decomp e upload image rc
    rw [ht, hr, String.append_assoc, String.append_assoc]
    exact containsSub_append_mid _ _ _

end DflowSlurm
